import Mathlib

/-!
Verification of the rate-limiter core of `connection.py` (class `APIRateMeter`
and the region table of `RiotAPISession`).

Shallow embedding conventions:
* Instants (`datetime.now()`) and durations (`timedelta`) are integers counting
  microseconds, the internal resolution of `timedelta`.  Subtraction of two
  instants yields a duration; both compare with the usual integer order, exactly
  as `datetime`/`timedelta` comparisons do in Python.
* A rate entry, as supplied by the caller, is a Python sequence of values; we
  model the values that can occur as `PyVal` and an entry as `List PyVal`, so
  that the dynamic shape/type checks of `_validaterates` (`r[0]`, `r[1]`,
  `isinstance`) are representable.
* The process-wide dictionary `APIRateMeter._tracked_keys` is a function from
  credential strings to optional per-key entries.
* Raising `InvalidRates` is modelled with `Except`.
-/

/-- Python values that can occur inside a supplied rate entry: an `int`, a
`timedelta` (measured in integer microseconds), or some other value. -/
inductive PyVal where
  | vint (n : Int)
  | vtd (usec : Int)
  | vstr (s : String)
  deriving DecidableEq, Repr

/-- A rate entry as supplied to the meter: a Python sequence of values.
A well-formed entry is `[PyVal.vint limit, PyVal.vtd window]`. -/
abbrev RateEntry := List PyVal

/-- The exception raised by `_validaterates` (from `Cassiopeia.errors`). -/
inductive PyErr where
  | invalidRates
  deriving DecidableEq, Repr

/-- Models the Python expression `rate[0]` on a validated rate entry: the limit
of the rule.  The `0` default is only reached on entries that `_validaterates`
would reject, which are never installed. -/
def rateLimit (r : RateEntry) : Int :=
  match r[0]? with
  | some (PyVal.vint n) => n
  | _ => 0

/-- Models the Python expression `rate[1]` on a validated rate entry: the window
duration of the rule.  The `0` default is only reached on entries that
`_validaterates` would reject, which are never installed. -/
def rateWindow (r : RateEntry) : Int :=
  match r[1]? with
  | some (PyVal.vtd w) => w
  | _ => 0

/-- Models `max(rate[1] for rate in rates)` in `__init__`: the largest window
among the rules.  Only ever applied to a non-empty list (Python `max` would
raise on an empty one); the `[]` case is an unreachable default. -/
def maxdeltaOf : List RateEntry → Int
  | [] => 0
  | r :: rs => rs.foldl (fun acc r2 => max acc (rateWindow r2)) (rateWindow r)

/-- One entry of `APIRateMeter._tracked_keys`: the per-credential dictionary
holding `rates`, `maxdelta` and `requestTimestamps`. -/
structure KeyEntry where
  rates : List RateEntry
  maxdelta : Int
  requestTimestamps : List Int
  deriving DecidableEq, Repr

/-- Embedding of `APIRateMeter.check`, evaluated at the instant `now`
(`datetime.now()`).  For each rate it counts
`[stamp for stamp in timestamps if stamp - datetime.now() < rate[1]]`
and returns `False` as soon as `callcount >= rate[0]`; returning `True` only
when the loop finishes is the same as `List.all`. -/
def check (e : KeyEntry) (now : Int) : Bool :=
  e.rates.all (fun rate =>
    decide (((e.requestTimestamps.filter
        (fun stamp => decide (stamp - now < rateWindow rate))).length : Int)
      < rateLimit rate))

/-- Embedding of `APIRateMeter.cleantimestamps`, evaluated at the instant
`now`: rewrites the stored history with
`[ts for ts in timestamps if (ts - datetime.now()) < maxdelta]`. -/
def cleantimestamps (e : KeyEntry) (now : Int) : KeyEntry :=
  { e with requestTimestamps :=
      e.requestTimestamps.filter (fun ts => decide (ts - now < e.maxdelta)) }

/-- Embedding of the mutation performed by one `APIRateMeter.access` call at
the instant `now`: optionally clean, then append `datetime.now()`.  The
`blocking` busy-poll loop is not a state transformation; it is modelled in the
theorems by the hypothesis `check e now = true`, its exit condition. -/
def access (e : KeyEntry) (now : Int) (clean : Bool) : KeyEntry :=
  let e1 := if clean then cleantimestamps e now else e
  { e1 with requestTimestamps := e1.requestTimestamps ++ [now] }

/-- Loop body of `_validaterates`: for each entry `r`, `r[0]` out of range is an
`IndexError`, caught and turned into `InvalidRates`; a non-`int` `r[0]` or a
non-`timedelta` `r[1]` raises `InvalidRates` directly. -/
def validloop : List RateEntry → Except PyErr Unit
  | [] => Except.ok ()
  | r :: rest =>
    match r[0]? with
    | none => Except.error PyErr.invalidRates
    | some v0 =>
      match v0 with
      | PyVal.vint _ =>
        match r[1]? with
        | none => Except.error PyErr.invalidRates
        | some v1 =>
          match v1 with
          | PyVal.vtd _ => validloop rest
          | _ => Except.error PyErr.invalidRates
      | _ => Except.error PyErr.invalidRates

/-- Embedding of `APIRateMeter._validaterates`: the guard `if rates:` makes an
empty rule set pass without inspection; otherwise every entry is checked. -/
def validaterates (rates : List RateEntry) : Except PyErr Unit :=
  if rates.isEmpty then Except.ok () else validloop rates

/-- Shape predicate: the entry has an `int` at index 0 and a `timedelta` at
index 1.  This is exactly what `_validaterates` checks per entry; note that no
sign condition appears. -/
def isRateShaped (r : RateEntry) : Bool :=
  match r[0]?, r[1]? with
  | some (PyVal.vint _), some (PyVal.vtd _) => true
  | _, _ => false

/-- Embedding of `APIRateMeter.default_rate`:
`( (10, timedelta(seconds=10)), (500, timedelta(minutes=10)) )`,
in microseconds. -/
def default_rate : List RateEntry :=
  [ [PyVal.vint 10, PyVal.vtd 10000000],
    [PyVal.vint 500, PyVal.vtd 600000000] ]

/-- The process-wide registry `APIRateMeter._tracked_keys`. -/
def Store : Type := String → Option KeyEntry

/-- Dictionary assignment `_tracked_keys[apikey] = e`. -/
def setKey (tk : Store) (k : String) (e : KeyEntry) : Store :=
  fun k2 => if k2 = k then some e else tk k2

/-- Embedding of `APIRateMeter.__init__(apikey, rates)`.  `rates = None` and
`rates = ()` are both falsy in Python; the model passes the empty list for an
omitted argument.  On a fresh credential an empty rule set is replaced by the
default before validation; on an already-registered credential a supplied rule
set is validated and installed with the old history, and an empty one leaves
the registry untouched.  An exception from validation propagates before any
assignment, so the registry is returned unchanged only through `Except.error`. -/
def initMeter (tk : Store) (apikey : String) (rates : List RateEntry) :
    Except PyErr Store :=
  match tk apikey with
  | none =>
    let rates2 := if rates.isEmpty then default_rate else rates
    match validaterates rates2 with
    | Except.error err => Except.error err
    | Except.ok _ =>
      Except.ok (setKey tk apikey
        { rates := rates2, maxdelta := maxdeltaOf rates2, requestTimestamps := [] })
  | some entry =>
    if rates.isEmpty then Except.ok tk
    else
      match validaterates rates with
      | Except.error err => Except.error err
      | Except.ok _ =>
        Except.ok (setKey tk apikey
          { rates := rates, maxdelta := maxdeltaOf rates,
            requestTimestamps := entry.requestTimestamps })

/-- Definition following the spec words for `check`, for comparison with the
code: count timestamps whose age (now − timestamp) is less than the window;
false iff some rule's count reaches its limit. -/
def specCheck (e : KeyEntry) (now : Int) : Bool :=
  e.rates.all (fun rate =>
    decide (((e.requestTimestamps.filter
        (fun stamp => decide (now - stamp < rateWindow rate))).length : Int)
      < rateLimit rate))

/-- Definition following the spec words for `cleanTimestamps`, for comparison
with the code: retain exactly the timestamps whose age (now − timestamp) does
not exceed `maxdelta`. -/
def specCleanKept (e : KeyEntry) (now : Int) : List Int :=
  e.requestTimestamps.filter (fun ts => decide (now - ts ≤ e.maxdelta))

/-- Embedding of `RiotAPISession.REGIONS`, the static region-to-host table. -/
def REGIONS : List (String × String) :=
  [ ("br", "br.api.pvp.net"),
    ("eune", "eune.api.pvp.net"),
    ("euw", "euw.api.pvp.net"),
    ("kr", "kr.api.pvp.net"),
    ("lan", "las.api.pvp.net"),
    ("las", "las.api.pvp.net"),
    ("na", "na.api.pvp.net"),
    ("oce", "oce.api.pvp.net"),
    ("ru", "ru.api.pvp.net"),
    ("tr", "tr.api.pvp.net") ]

/-- Dictionary lookup `RiotAPISession.REGIONS[region]`. -/
def regionHost (region : String) : Option String :=
  (REGIONS.find? (fun p => p.1 == region)).map Prod.snd

/-- The URL built by `RiotAPISession.get`:
`https:// + REGIONS[self.region] + endpoint`.  `None` models the `KeyError`
on a region outside the table, which the constructor rules out. -/
def getUrl (region : String) (endpoint : String) : Option String :=
  (regionHost region).map (fun host => "https://" ++ host ++ endpoint)

/-! Concrete states used by the evaluation theorems below.  Each claim gets its
own fixture so the fixtures can be removed independently. -/

/-- Fixture for the evaluation of `check`: one rule of 1 access per 10 seconds,
one recorded timestamp 20 seconds in the past (instant −20 s, now = 0). -/
def staleEntryC1 : KeyEntry :=
  { rates := [[PyVal.vint 1, PyVal.vtd 10000000]],
    maxdelta := 10000000,
    requestTimestamps := [-20000000] }

/-- Fixture for the evaluation of `cleantimestamps`: same shape as
`staleEntryC1` — maxdelta 10 s, one timestamp 20 seconds old. -/
def staleEntryC2 : KeyEntry :=
  { rates := [[PyVal.vint 1, PyVal.vtd 10000000]],
    maxdelta := 10000000,
    requestTimestamps := [-20000000] }

/-- Fixture for the blocking-access claim: one rule of 1 access per 10 seconds
and an empty history. -/
def emptyEntryC3 : KeyEntry :=
  { rates := [[PyVal.vint 1, PyVal.vtd 10000000]],
    maxdelta := 10000000,
    requestTimestamps := [] }

/-- Fixture for the single-rule recovery scenario: limit 1, window 10 s,
empty history. -/
def emptyEntryC4 : KeyEntry :=
  { rates := [[PyVal.vint 1, PyVal.vtd 10000000]],
    maxdelta := 10000000,
    requestTimestamps := [] }

/-- Fixture for the default-policy scenario: the entry `__init__` installs for
a brand-new credential when no rules are supplied. -/
def defaultEntryC9 : KeyEntry :=
  { rates := default_rate,
    maxdelta := maxdeltaOf default_rate,
    requestTimestamps := [] }

/-- Iterated `access(blocking=false, clean=true)` calls, all at the same
instant `now`. -/
def afterAccesses (e : KeyEntry) (now : Int) : Nat → KeyEntry
  | 0 => e
  | n + 1 => access (afterAccesses e now n) now true

/-- C1: the claim says `check()` is false iff some rule has at least `limit`
timestamps of age less than `window`.  The code computes `stamp - now`, which
is negative for every past timestamp, so it counts stale timestamps too: with
one rule (limit 1, window 10 s) and a single 20-second-old timestamp the code
returns false while the claimed age-based count (0 < 1) demands true. -/
theorem C1_check_counts_stale_timestamps :
    check staleEntryC1 0 = false ∧ specCheck staleEntryC1 0 = true := by
  decide

/-- C2: the claim says `cleantimestamps` removes every timestamp older than
`maxdelta`.  The code filters on `ts - now < maxdelta`, which holds for every
past timestamp, so a 20-second-old timestamp survives a cleanup with
maxdelta = 10 s, while the spec retains nothing. -/
theorem C2_clean_removes_nothing :
    (cleantimestamps staleEntryC2 0).requestTimestamps = [-20000000] ∧
    specCleanKept staleEntryC2 0 = [] := by
  decide

/-- C3 counterexample: with one rule (limit 1, window 10 s) and empty history,
`check` is true at instant 0, so `access(blocking=true)` returns immediately
after recording the access — but `check` evaluated at the return instant, on
the state including the just-appended timestamp, is false.  The claim that a
blocking access never returns while `check()` reports false is therefore
violated at this input. -/
theorem C3_blocking_return_counterexample :
    check emptyEntryC3 0 = true ∧ check (access emptyEntryC3 0 true) 0 = false := by
  decide

/-- C4: single rule limit 1, window 10 s, one `access(blocking=false)` at
instant 0.  Immediately afterwards `check` is false, as claimed; but 20 seconds
later — more than a full window with no further access — the code still
returns false (it counts the stale timestamp via `stamp - now`), while the
claim and the age-based reading require true. -/
theorem C4_no_recovery_after_window :
    check (access emptyEntryC4 0 true) 0 = false ∧
    check (access emptyEntryC4 0 true) 20000000 = false ∧
    specCheck (access emptyEntryC4 0 true) 20000000 = true := by
  decide

/-- C9: under the default policy (10 per 10 s, 500 per 10 min), 9 accesses at
instant 0 leave `check` true and the 10th makes it false, as claimed; but
15 seconds later — past the 10-second window — the code still returns false,
while the claim says `check` is false only until 10 seconds elapse.  The first
conjunct confirms that `__init__` with no rules installs exactly the default
two-window policy for a fresh credential. -/
theorem C9_default_policy_no_recovery :
    initMeter (fun _ => none) "key" []
      = Except.ok (setKey (fun _ => none) "key" defaultEntryC9) ∧
    check (afterAccesses defaultEntryC9 0 9) 0 = true ∧
    check (afterAccesses defaultEntryC9 0 10) 0 = false ∧
    check (afterAccesses defaultEntryC9 0 10) 5000000 = false ∧
    check (afterAccesses defaultEntryC9 0 10) 15000000 = false ∧
    specCheck (afterAccesses defaultEntryC9 0 10) 15000000 = true := by
  exact ⟨rfl, by decide, by decide, by decide, by decide, by decide⟩

/-- C5 counterexample: a rule with a negative limit and a zero window is a
shape-correct (int, timedelta) pair, so `_validaterates` accepts it and a fresh
construction installs it instead of raising `InvalidRates`, contradicting the
claim that a negative limit or non-positive window is rejected. -/
theorem C5_negative_rate_accepted :
    validaterates [[PyVal.vint (-1), PyVal.vtd 0]] = Except.ok () ∧
    initMeter (fun _ => none) "key" [[PyVal.vint (-1), PyVal.vtd 0]]
      = Except.ok (setKey (fun _ => none) "key"
          { rates := [[PyVal.vint (-1), PyVal.vtd 0]],
            maxdelta := 0, requestTimestamps := [] }) :=
  ⟨rfl, rfl⟩

/-- C10: the region table maps the code `lan` to the host `las.api.pvp.net`,
the same host as `las`; every URL built by `get` for a session with region
`lan` therefore starts with `https://las.api.pvp.net`, and no entry of the
table carries a `lan.api.pvp.net` host. -/
theorem C10_lan_region_uses_las_host :
    regionHost "lan" = some "las.api.pvp.net" ∧
    regionHost "lan" = regionHost "las" ∧
    (∀ endpoint : String,
      getUrl "lan" endpoint = some ("https://las.api.pvp.net" ++ endpoint)) ∧
    (REGIONS.map Prod.snd).contains "lan.api.pvp.net" = false := by
  refine ⟨rfl, rfl, fun endpoint => rfl, by decide⟩

/-! Helper lemmas shared by several claims. -/

/-- Validation of a non-empty list succeeds exactly when every entry has the
(int, timedelta) shape. -/
theorem validloop_ok_iff (l : List RateEntry) :
    validloop l = Except.ok () ↔ ∀ r ∈ l, isRateShaped r = true := by
  induction l with
  | nil => simp [validloop]
  | cons r rest ih =>
    cases h0 : r[0]? with
    | none => simp [validloop, isRateShaped, h0]
    | some v0 =>
      cases v0 with
      | vint n =>
        cases h1 : r[1]? with
        | none => simp [validloop, isRateShaped, h0, h1]
        | some v1 =>
          cases v1 with
          | vint n1 => simp [validloop, isRateShaped, h0, h1]
          | vtd w1 => simp [validloop, isRateShaped, h0, h1, ih]
          | vstr s1 => simp [validloop, isRateShaped, h0, h1]
      | vtd w => simp [validloop, isRateShaped, h0]
      | vstr s => simp [validloop, isRateShaped, h0]

/-- The running maximum of a fold never drops below its initial value. -/
theorem foldl_max_ge_init (l : List RateEntry) (a : Int) :
    a ≤ l.foldl (fun acc r2 => max acc (rateWindow r2)) a := by
  induction l generalizing a with
  | nil => simp
  | cons r rest ih =>
    exact le_trans (le_max_left _ _) (ih (max a (rateWindow r)))

/-- The fold dominates the window of every listed rate. -/
theorem foldl_max_ge_mem (l : List RateEntry) (a : Int) :
    ∀ r ∈ l, rateWindow r ≤ l.foldl (fun acc r2 => max acc (rateWindow r2)) a := by
  induction l generalizing a with
  | nil => simp
  | cons s rest ih =>
    intro r hr
    rcases List.mem_cons.mp hr with h | h
    · subst h
      exact le_trans (le_max_right _ _) (foldl_max_ge_init rest _)
    · exact ih _ r h

/-- The fold value is either the initial value or the window of some listed
rate. -/
theorem foldl_max_attained (l : List RateEntry) (a : Int) :
    l.foldl (fun acc r2 => max acc (rateWindow r2)) a = a ∨
    ∃ r ∈ l, l.foldl (fun acc r2 => max acc (rateWindow r2)) a = rateWindow r := by
  induction l generalizing a with
  | nil => exact Or.inl rfl
  | cons s rest ih =>
    rcases ih (max a (rateWindow s)) with h | ⟨r, hr, h⟩
    · rcases max_cases a (rateWindow s) with ⟨hm, _⟩ | ⟨hm, _⟩
      · exact Or.inl (by rw [List.foldl_cons, h, hm])
      · exact Or.inr ⟨s, List.mem_cons_self s rest, by rw [List.foldl_cons, h, hm]⟩
    · exact Or.inr ⟨r, List.mem_cons_of_mem s hr, by rw [List.foldl_cons, h]⟩

/-- Every window of a non-empty rate list is at most `maxdeltaOf`. -/
theorem rateWindow_le_maxdeltaOf (rates : List RateEntry) :
    ∀ r ∈ rates, rateWindow r ≤ maxdeltaOf rates := by
  cases rates with
  | nil => simp
  | cons s rest =>
    intro r hr
    rcases List.mem_cons.mp hr with h | h
    · subst h
      exact foldl_max_ge_init rest _
    · exact foldl_max_ge_mem rest _ r h

/-- On a non-empty rate list, `maxdeltaOf` is the window of one of the rates. -/
theorem maxdeltaOf_attained (rates : List RateEntry) (hne : rates ≠ []) :
    ∃ r, r ∈ rates ∧ maxdeltaOf rates = rateWindow r := by
  cases rates with
  | nil => exact absurd rfl hne
  | cons s rest =>
    rcases foldl_max_attained rest (rateWindow s) with h | ⟨r, hr, h⟩
    · exact ⟨s, List.mem_cons_self s rest, h⟩
    · exact ⟨r, List.mem_cons_of_mem s hr, h⟩

/-- With an empty history, `check` is true as soon as every limit is
positive: every per-rule count is zero. -/
theorem check_empty_history (e : KeyEntry) (now : Int)
    (hts : e.requestTimestamps = [])
    (hpos : ∀ r ∈ e.rates, 0 < rateLimit r) :
    check e now = true := by
  unfold check
  rw [List.all_eq_true]
  intro rate hrate
  rw [hts]
  simpa using hpos rate hrate

/-- C7: `cleantimestamps` is idempotent — running the cleanup twice at the same
instant leaves the same retained history as running it once, because filtering
with the same predicate twice is filtering once. -/
theorem C7_cleantimestamps_idempotent (e : KeyEntry) (now : Int) :
    cleantimestamps (cleantimestamps e now) now = cleantimestamps e now := by
  unfold cleantimestamps
  simp [List.filter_filter]

/-- C3, amended: a blocking `access` call only proceeds past its busy-poll loop
at an instant where `check` is true; the subsequent cleanup step preserves that
(cleaning only removes timestamps, so no per-rule count can grow), and the new
timestamp is appended to the cleaned history.  The original claim — `check`
still true at the return instant, after the append — is refuted by
`C3_blocking_return_counterexample`: the recorded access itself may consume
the last unit of headroom. -/
theorem C3_blocking_check_holds_before_append (e : KeyEntry) (now : Int)
    (h : check e now = true) :
    check (cleantimestamps e now) now = true ∧
    (access e now true).requestTimestamps
      = (cleantimestamps e now).requestTimestamps ++ [now] := by
  refine ⟨?_, rfl⟩
  unfold check at h ⊢
  unfold cleantimestamps
  rw [List.all_eq_true] at h ⊢
  intro rate hrate
  have h2 := h rate hrate
  rw [decide_eq_true_eq] at h2 ⊢
  refine lt_of_le_of_lt ?_ h2
  have hsub :
      ((e.requestTimestamps.filter (fun ts => decide (ts - now < e.maxdelta))).filter
          (fun stamp => decide (stamp - now < rateWindow rate))).Sublist
        (e.requestTimestamps.filter (fun stamp => decide (stamp - now < rateWindow rate))) :=
    List.Sublist.filter _ (List.filter_sublist _)
  exact_mod_cast hsub.length_le

/-- Fixture for the C3 witness: one rule of 2 accesses per 10 seconds and a
single 5-second-old timestamp, so `check` holds at instant 0. -/
def recentEntryC3 : KeyEntry :=
  { rates := [[PyVal.vint 2, PyVal.vtd 10000000]],
    maxdelta := 10000000,
    requestTimestamps := [-5000000] }

/-- C3 witness: the amended theorem applied to `recentEntryC3` at instant 0,
whose `check` premise evaluates to true. -/
theorem C3_blocking_check_witness :
    check (cleantimestamps recentEntryC3 0) 0 = true ∧
    (access recentEntryC3 0 true).requestTimestamps
      = (cleantimestamps recentEntryC3 0).requestTimestamps ++ [0] :=
  C3_blocking_check_holds_before_append recentEntryC3 0 (by decide)

/-- C5, amended: validation is a shape/type check only.  For a non-empty rule
set supplied to a registered credential, `_validaterates` accepts exactly when
every element carries an `int` at index 0 and a `timedelta` at index 1 — the
sign of the limit and of the window is never examined, so any integer limit
and any duration, including negative and zero ones, pass
(`C5_negative_rate_accepted` is a concrete instance).  When validation does
raise `InvalidRates`, re-registration aborts before any assignment and the
pre-existing registration is unchanged. -/
theorem C5_validation_is_shape_check_only (rates : List RateEntry) (tk : Store)
    (k : String) (e : KeyEntry)
    (hreg : tk k = some e) (hne : rates ≠ []) :
    (validaterates rates = Except.ok () ↔ ∀ r ∈ rates, isRateShaped r = true) ∧
    (validaterates rates = Except.error PyErr.invalidRates →
      initMeter tk k rates = Except.error PyErr.invalidRates) ∧
    (∀ n w : Int, isRateShaped [PyVal.vint n, PyVal.vtd w] = true) := by
  have hemp : rates.isEmpty = false := by
    cases rates with
    | nil => exact absurd rfl hne
    | cons r rest => rfl
  refine ⟨?_, ?_, fun n w => rfl⟩
  · rw [validaterates, hemp]
    simpa using validloop_ok_iff rates
  · intro herr
    rw [validaterates, hemp] at herr
    simp only [Bool.false_eq_true, if_false] at herr
    unfold initMeter
    rw [hreg]
    simp [hemp, validaterates, herr]

/-- Fixture for the C5 witness: a registered credential with the default rules
and a two-element history. -/
def regEntryC5 : KeyEntry :=
  { rates := default_rate,
    maxdelta := maxdeltaOf default_rate,
    requestTimestamps := [1, 2] }

/-- Fixture for the C5 witness: a registry holding `regEntryC5` under the
credential string used by the witness. -/
def regStoreC5 : Store :=
  fun k2 => if k2 = "key-a" then some regEntryC5 else none

/-- C5 witness: the amended theorem applied to a concrete registered store and
the concrete one-rule set (limit 5, window 3 µs). -/
theorem C5_validation_witness :
    (validaterates [[PyVal.vint 5, PyVal.vtd 3]] = Except.ok () ↔
      ∀ r ∈ [[PyVal.vint 5, PyVal.vtd 3]], isRateShaped r = true) ∧
    (validaterates [[PyVal.vint 5, PyVal.vtd 3]] = Except.error PyErr.invalidRates →
      initMeter regStoreC5 "key-a" [[PyVal.vint 5, PyVal.vtd 3]]
        = Except.error PyErr.invalidRates) ∧
    (∀ n w : Int, isRateShaped [PyVal.vint n, PyVal.vtd w] = true) :=
  C5_validation_is_shape_check_only [[PyVal.vint 5, PyVal.vtd 3]] regStoreC5
    "key-a" regEntryC5 rfl (by decide)

/-- C6: re-registering an already-registered credential with a valid non-empty
rule set installs exactly the new rules with the old timestamp history; the
stored `maxdelta` is recomputed as the largest window among the new rules (it
dominates every new window and is attained by one of them), and every other
credential's registry entry is untouched. -/
theorem C6_reregistration_replaces_rules_keeps_history (tk : Store) (k : String)
    (rates : List RateEntry) (e : KeyEntry)
    (hreg : tk k = some e) (hne : rates ≠ [])
    (hok : validaterates rates = Except.ok ()) :
    initMeter tk k rates = Except.ok (setKey tk k
      { rates := rates, maxdelta := maxdeltaOf rates,
        requestTimestamps := e.requestTimestamps }) ∧
    (setKey tk k
      { rates := rates, maxdelta := maxdeltaOf rates,
        requestTimestamps := e.requestTimestamps }) k
      = some { rates := rates, maxdelta := maxdeltaOf rates,
               requestTimestamps := e.requestTimestamps } ∧
    (∀ k2, k2 ≠ k → (setKey tk k
      { rates := rates, maxdelta := maxdeltaOf rates,
        requestTimestamps := e.requestTimestamps }) k2 = tk k2) ∧
    (∀ r ∈ rates, rateWindow r ≤ maxdeltaOf rates) ∧
    (∃ r, r ∈ rates ∧ maxdeltaOf rates = rateWindow r) := by
  have hemp : rates.isEmpty = false := by
    cases rates with
    | nil => exact absurd rfl hne
    | cons r rest => rfl
  refine ⟨?_, ?_, ?_, rateWindow_le_maxdeltaOf rates, maxdeltaOf_attained rates hne⟩
  · unfold initMeter
    rw [hreg]
    simp [hemp, hok]
  · simp [setKey]
  · intro k2 hk2
    simp [setKey, hk2]

/-- Fixture for the C6 witness: a registered credential holding the default
rules and a one-element history. -/
def regEntryC6 : KeyEntry :=
  { rates := default_rate,
    maxdelta := maxdeltaOf default_rate,
    requestTimestamps := [7] }

/-- Fixture for the C6 witness: a registry holding `regEntryC6` under the
credential string used by the witness. -/
def regStoreC6 : Store :=
  fun k2 => if k2 = "key-b" then some regEntryC6 else none

/-- Fixture for the C6 witness: the replacement rule set, one rule of 3
accesses per 20 seconds. -/
def newRatesC6 : List RateEntry := [[PyVal.vint 3, PyVal.vtd 20000000]]

/-- C6 witness: the re-registration theorem applied to the concrete registry
`regStoreC6`, replacing the default rules with `newRatesC6`. -/
theorem C6_reregistration_witness :
    initMeter regStoreC6 "key-b" newRatesC6 = Except.ok (setKey regStoreC6 "key-b"
      { rates := newRatesC6, maxdelta := maxdeltaOf newRatesC6,
        requestTimestamps := regEntryC6.requestTimestamps }) ∧
    (setKey regStoreC6 "key-b"
      { rates := newRatesC6, maxdelta := maxdeltaOf newRatesC6,
        requestTimestamps := regEntryC6.requestTimestamps }) "key-b"
      = some { rates := newRatesC6, maxdelta := maxdeltaOf newRatesC6,
               requestTimestamps := regEntryC6.requestTimestamps } ∧
    (∀ k2, k2 ≠ "key-b" → (setKey regStoreC6 "key-b"
      { rates := newRatesC6, maxdelta := maxdeltaOf newRatesC6,
        requestTimestamps := regEntryC6.requestTimestamps }) k2 = regStoreC6 k2) ∧
    (∀ r ∈ newRatesC6, rateWindow r ≤ maxdeltaOf newRatesC6) ∧
    (∃ r, r ∈ newRatesC6 ∧ maxdeltaOf newRatesC6 = rateWindow r) :=
  C6_reregistration_replaces_rules_keeps_history regStoreC6 "key-b" newRatesC6
    regEntryC6 rfl (by decide) rfl

/-- C8: constructing a meter for a fresh credential installs an entry with an
empty timestamp history, and — provided every supplied limit is a positive
integer (the installed default limits are positive as well) — `check` returns
true at every instant on that freshly installed entry: an empty history gives
every rule a count of zero. -/
theorem C8_fresh_construction_check_true (tk : Store) (k : String)
    (rates : List RateEntry) (tk1 : Store) (now : Int)
    (hfresh : tk k = none)
    (hpos : ∀ r ∈ rates, 0 < rateLimit r)
    (hok : initMeter tk k rates = Except.ok tk1) :
    tk1 k = some
      { rates := if rates.isEmpty then default_rate else rates,
        maxdelta := maxdeltaOf (if rates.isEmpty then default_rate else rates),
        requestTimestamps := [] } ∧
    check
      { rates := if rates.isEmpty then default_rate else rates,
        maxdelta := maxdeltaOf (if rates.isEmpty then default_rate else rates),
        requestTimestamps := [] } now = true := by
  have hpos2 : ∀ r ∈ (if rates.isEmpty then default_rate else rates), 0 < rateLimit r := by
    cases hcase : rates.isEmpty with
    | true => rw [if_pos rfl]; decide
    | false => rw [if_neg (by simp [hcase])]; exact hpos
  constructor
  · simp only [initMeter, hfresh] at hok
    cases hval : validaterates (if rates.isEmpty then default_rate else rates) with
    | error err => rw [hval] at hok; exact absurd hok (by simp)
    | ok u =>
      rw [hval] at hok
      simp only [Except.ok.injEq] at hok
      rw [← hok]
      simp [setKey]
  · exact check_empty_history _ now rfl hpos2

/-- Fixture for the C8 witness: a single rule of 3 accesses per 7 µs. -/
def freshRatesC8 : List RateEntry := [[PyVal.vint 3, PyVal.vtd 7]]

/-- C8 witness: the fresh-construction theorem applied to the empty registry
and the concrete positive-limit rule set `freshRatesC8` at instant 42. -/
theorem C8_fresh_construction_witness :
    (setKey (fun _ => none) "key-c"
      { rates := if freshRatesC8.isEmpty then default_rate else freshRatesC8,
        maxdelta := maxdeltaOf (if freshRatesC8.isEmpty then default_rate else freshRatesC8),
        requestTimestamps := [] }) "key-c" = some
      { rates := if freshRatesC8.isEmpty then default_rate else freshRatesC8,
        maxdelta := maxdeltaOf (if freshRatesC8.isEmpty then default_rate else freshRatesC8),
        requestTimestamps := [] } ∧
    check
      { rates := if freshRatesC8.isEmpty then default_rate else freshRatesC8,
        maxdelta := maxdeltaOf (if freshRatesC8.isEmpty then default_rate else freshRatesC8),
        requestTimestamps := [] } 42 = true :=
  C8_fresh_construction_check_true (fun _ => none) "key-c" freshRatesC8
    (setKey (fun _ => none) "key-c"
      { rates := if freshRatesC8.isEmpty then default_rate else freshRatesC8,
        maxdelta := maxdeltaOf (if freshRatesC8.isEmpty then default_rate else freshRatesC8),
        requestTimestamps := [] })
    42 rfl (by decide) rfl
